import Mathlib

/-!
Verification development for the HvacFanControl repository
(src/fan_controller.cpp).

The program polls a thermostat over HTTP, decodes a JSON reading, and
drives two controllers: a ceiling-fan speed synchronizer with asymmetric
debounce delays, and a furnace-blower override that forces the blower ON
for a trailing window after heat stops and then restores the latched mode.

Shallow embedding conventions:
- Clock instants and durations (std::chrono::steady_clock) are modelled as
  `Int`, in seconds; each loop iteration uses a single `now` value.
- HTTP exchanges are modelled by their observable result: a status code
  (`Int`, 0 standing for a transport failure that leaves curl's response
  code at zero) and a body.  Response bodies are modelled post-lexing as
  either syntactically invalid JSON or a JSON value tree; numeric JSON
  payloads carry an `Int` (no claim depends on non-integral values) plus
  the int/float distinction rapidjson tracks.
- rapidjson precondition violations (RAPIDJSON_ASSERT in GetFloat/GetInt/
  HasMember/operator[]) are modelled as an explicit `Fault`, propagated
  through `Except`; all other code is total.
- Commands issued to devices (SetBlowerState, SetFanSpeed) are collected
  in an output list; SetFanSpeed's success (HTTP 200) is an input oracle
  since CeilingFan::Update uses its return value, while FurnaceBlower
  ignores SetBlowerState's return value.
-/

/-! ## Configuration constants (fan_controller.cpp lines 48-62) -/

def k_thermostatPollFrequencySeconds : Int := 15

def k_runBlowerFanAfterHeatOff : Int := 60 * 6

def k_ceilingFanOnDelay : Int := 60

def k_ceilingFanOffDelay : Int := 180

def k_heatOnFanSpeed : Int := 2

def k_heatOffFanSpeed : Int := 1

def BLOWER_ON : Int := 2

/-! ## JSON model and the rapidjson accessors the code uses -/

/-- Fault raised by a rapidjson RAPIDJSON_ASSERT precondition violation
(e.g. GetInt on a non-int value, HasMember on a non-object). -/
inductive Fault where
  | assertFailed
deriving DecidableEq, Repr

/-- JSON value tree, as rapidjson sees a parsed document.  Numbers carry
the int flag rapidjson distinguishes; numeric payloads are modelled as
`Int` because no claim depends on fractional values. -/
inductive Json where
  | null
  | bool (b : Bool)
  | int (n : Int)
  | float (n : Int)
  | str (s : String)
  | arr (xs : List Json)
  | obj (fields : List (String × Json))

/-- A response body after rapidjson parsing: `invalid` covers both the
empty-body check and a body with a JSON parse error (both return nullopt
in ParseState); `json` is a successfully parsed document. -/
inductive RawBody where
  | invalid
  | json (j : Json)

/-- rapidjson Value::HasMember: asserts IsObject, else reports membership. -/
def Json.hasMemberChecked : Json → String → Except Fault Bool
  | .obj fs, k => .ok (fs.any (fun p => p.1 == k))
  | _, _ => .error .assertFailed

/-- Member lookup (first match), none when absent or not an object. -/
def Json.findMember : Json → String → Option Json
  | .obj fs, k => List.lookup k fs
  | _, _ => none

/-- Model of doc[k].GetFloat(): operator[] asserts the member exists,
GetFloat asserts IsNumber (int or double both accepted). -/
def Json.getFloatAt (j : Json) (k : String) : Except Fault Int :=
  match j.findMember k with
  | some (.int n) => .ok n
  | some (.float n) => .ok n
  | _ => .error .assertFailed

/-- Model of doc[k].GetInt(): operator[] asserts the member exists,
GetInt asserts the value carries the int flag. -/
def Json.getIntAt (j : Json) (k : String) : Except Fault Int :=
  match j.findMember k with
  | some (.int n) => .ok n
  | _ => .error .assertFailed

/-! ## ThermostatState and Thermostat (fan_controller.cpp lines 96-307) -/

/-- struct ThermostatState (lines 96-105): the decoded reading. -/
structure ThermostatState where
  temp : Int
  targetTemp : Int
  isHeatOn : Bool
  blowerState : Int
deriving DecidableEq, Repr

/-- The mutable fields of class Thermostat (lines 112-118).  The CURL
handle is not state the claims concern. -/
structure Thermostat where
  previousState : Option ThermostatState
  lastTransitionTime : Int
  stateChanged : Bool
  failCount : Nat
deriving DecidableEq, Repr

/-- Thermostat constructor (lines 209-214): lastTransitionTime is
initialised to now() - k_runBlowerFanAfterHeatOff. -/
def Thermostat.init (startTime : Int) : Thermostat :=
  { previousState := none
    lastTransitionTime := startTime - k_runBlowerFanAfterHeatOff
    stateChanged := false
    failCount := 0 }

/-- Thermostat::GetTimeSinceTransition (lines 220-225): returns zero when
lastTransitionTime sits exactly at the clock epoch, else now minus
lastTransitionTime. -/
def Thermostat.getTimeSinceTransition (t : Thermostat) (now : Int) : Int :=
  if t.lastTransitionTime = 0 then 0 else now - t.lastTransitionTime

/-- Thermostat::ParseState (lines 227-250): nullopt on empty/unparsable
data or a missing required member; otherwise reads temp/t_heat with
GetFloat and tstate/fmode with GetInt (each of which can fault on a
wrong-typed member). -/
def Thermostat.parseState (raw : RawBody) : Except Fault (Option ThermostatState) :=
  match raw with
  | .invalid => .ok none
  | .json j => do
    let h1 ← j.hasMemberChecked "temp"
    let h2 ← j.hasMemberChecked "t_heat"
    let h3 ← j.hasMemberChecked "tstate"
    let h4 ← j.hasMemberChecked "fmode"
    if !h1 || !h2 || !h3 || !h4 then
      return none
    else
      let temp ← j.getFloatAt "temp"
      let theat ← j.getFloatAt "t_heat"
      let tstate ← j.getIntAt "tstate"
      let fmode ← j.getIntAt "fmode"
      return some ⟨temp, theat, tstate == 1, fmode⟩

/-- Thermostat::Update (lines 252-283), given this iteration's clock value
and the HTTP exchange's observable result.  Returns the new thermostat
state, the bool Update returns, and whether this call emitted the
every-6th-consecutive-failure syslog line. -/
def Thermostat.update (t : Thermostat) (now : Int) (status : Int) (body : RawBody) :
    Except Fault (Thermostat × Bool × Bool) :=
  let t0 : Thermostat := { t with stateChanged := false }
  if status != 200 then
    let fc := t0.failCount + 1
    .ok ({ t0 with failCount := fc }, false, fc % 6 == 0)
  else
    match Thermostat.parseState body with
    | .error f => .error f
    | .ok none =>
        let fc := t0.failCount + 1
        .ok ({ t0 with failCount := fc }, false, fc % 6 == 0)
    | .ok (some newState) =>
        let changed :=
          match t0.previousState with
          | some p => p.isHeatOn != newState.isHeatOn
          | none => false
        .ok ({ previousState := some newState
               lastTransitionTime := if changed then now else t0.lastTransitionTime
               stateChanged := changed
               failCount := 0 }, true, false)

/-- Thermostat::StateChanged (line 294). -/
def Thermostat.stateChangedQ (t : Thermostat) : Bool := t.stateChanged

/-- Thermostat::isFurnaceOn (line 296). -/
def Thermostat.isFurnaceOn (t : Thermostat) : Bool :=
  match t.previousState with
  | some p => p.isHeatOn
  | none => false

/-- Thermostat::GetBlowerState (line 299): the last known blower state, or
-1 if no thermostat data has been decoded yet. -/
def Thermostat.getBlowerState (t : Thermostat) : Int :=
  match t.previousState with
  | some p => p.blowerState
  | none => -1

/-! ## Device commands and the two controllers (lines 309-408) -/

/-- A state-changing command sent to a device. -/
inductive Cmd where
  | setBlower (mode : Int)
  | setFanSpeed (speed : Int)
deriving DecidableEq, Repr

def Cmd.isFan : Cmd → Bool
  | .setFanSpeed _ => true
  | _ => false

def Cmd.isBlower : Cmd → Bool
  | .setBlower _ => true
  | _ => false

/-- CeilingFan::Update (lines 351-360).  `flag` is the member
fanStateUpdatedSinceLastTransition; `cmdOk` is whether SetFanSpeed's HTTP
request returns 200 (its return value, which the code stores into the
flag).  Returns the new flag and the commands issued. -/
def CeilingFan.update (flag : Bool) (tstat : Thermostat) (now : Int) (cmdOk : Bool) :
    Bool × List Cmd :=
  if tstat.stateChangedQ then
    (false, [])
  else if !flag && decide (tstat.getTimeSinceTransition now >
      (if tstat.isFurnaceOn then k_ceilingFanOnDelay else k_ceilingFanOffDelay)) then
    (cmdOk, [Cmd.setFanSpeed (if tstat.isFurnaceOn then k_heatOnFanSpeed else k_heatOffFanSpeed)])
  else
    (flag, [])

/-- FurnaceBlower::Update (lines 373-391).  `latchedState` is the member
std::optional<int>; SetBlowerState's return value is ignored by the code,
so no success oracle is needed.  Returns the new latch and the commands
issued. -/
def FurnaceBlower.update (latchedState : Option Int) (tstat : Thermostat) (now : Int) :
    Option Int × List Cmd :=
  let currentBlowerState := tstat.getBlowerState
  if !tstat.isFurnaceOn &&
      (tstat.stateChangedQ ||
        decide (tstat.getTimeSinceTransition now < k_runBlowerFanAfterHeatOff)) then
    let latched2 :=
      if latchedState.isNone && currentBlowerState != -1 then
        some currentBlowerState
      else latchedState
    (latched2, if currentBlowerState != BLOWER_ON then [Cmd.setBlower BLOWER_ON] else [])
  else
    match latchedState with
    | none => (none, [])
    | some m =>
        if currentBlowerState == m then (none, [])
        else (some m, [Cmd.setBlower m])

/-- The engage/continue-override condition of FurnaceBlower::Update
(line 375-376): heat currently inactive AND (a transition occurred this
poll OR time since transition is strictly below the tail window). -/
def FurnaceBlower.engageCond (tstat : Thermostat) (now : Int) : Bool :=
  !tstat.isFurnaceOn &&
    (tstat.stateChangedQ ||
      decide (tstat.getTimeSinceTransition now < k_runBlowerFanAfterHeatOff))

/-- The disengage behaviour of FurnaceBlower::Update (lines 384-390): with
no latch do nothing; with a latch, clear it when the device already shows
the latched mode, else command the latched mode and keep the latch. -/
def FurnaceBlower.disengageStep (latchedState : Option Int) (tstat : Thermostat) :
    Option Int × List Cmd :=
  match latchedState with
  | none => (none, [])
  | some m =>
      if tstat.getBlowerState == m then (none, [])
      else (some m, [Cmd.setBlower m])

/-! ## Scheduler sleep (main loop, lines 441-453) -/

/-- Semantics of std::this_thread::sleep_for for a relative timeout:
a non-positive requested duration blocks for no time at all. -/
def sleepFor (d : Int) : Int := max d 0

/-- The sleep performed at the bottom of one loop iteration that took
`execTime` to run: sleep_for(k_thermostatPollFrequencySeconds - execTime). -/
def loopSleepDuration (execTime : Int) : Int :=
  sleepFor (k_thermostatPollFrequencySeconds - execTime)

/-! ## Poll sequences and the main control loop -/

/-- One thermostat poll's observable input: the iteration's clock value
and the HTTP result. -/
structure PollStep where
  now : Int
  status : Int
  body : RawBody

/-- Folding Thermostat::Update over a sequence of polls, collecting each
call's (returned-success, emitted-failure-log) pair. -/
def Thermostat.runPolls : Thermostat → List PollStep → Except Fault (Thermostat × List (Bool × Bool))
  | t, [] => .ok (t, [])
  | t, p :: ps =>
    match t.update p.now p.status p.body with
    | .error f => .error f
    | .ok (t2, suc, logged) =>
      match Thermostat.runPolls t2 ps with
      | .error f => .error f
      | .ok (t3, outs) => .ok (t3, (suc, logged) :: outs)

/-- Specification-side observer: the last successfully decoded reading of
a poll sequence (status 200 and ParseState returning a value), starting
from a given previously decoded reading. -/
def specLastDecoded : Option ThermostatState → List PollStep → Option ThermostatState
  | acc, [] => acc
  | acc, p :: ps =>
    if p.status = 200 then
      match Thermostat.parseState p.body with
      | .ok (some r) => specLastDecoded (some r) ps
      | _ => specLastDecoded acc ps
    else
      specLastDecoded acc ps

/-- The whole-process state main owns: the thermostat tracker, one
ceiling fan's debounce flag (the three fans are identical and
independent), and the furnace blower's latch. -/
structure SysState where
  tstat : Thermostat
  fanFlag : Bool
  blowerLatch : Option Int
deriving DecidableEq, Repr

/-- Initial state at process start (main, lines 418-426): flags false,
latch empty, thermostat constructed at `startTime`. -/
def sysInit (startTime : Int) : SysState :=
  { tstat := Thermostat.init startTime, fanFlag := false, blowerLatch := none }

/-- One loop iteration's inputs: clock value, the thermostat exchange's
result, and whether a ceiling-fan speed command issued this iteration
would succeed. -/
structure LoopInput where
  now : Int
  status : Int
  body : RawBody
  fanCmdOk : Bool

/-- One iteration of the main loop body (lines 444-449): poll the
thermostat; only on success tick the ceiling fan and then the furnace
blower.  Commands are tagged with the iteration's clock value. -/
def mainStep (s : SysState) (inp : LoopInput) : Except Fault (SysState × List (Int × Cmd)) :=
  match s.tstat.update inp.now inp.status inp.body with
  | .error f => .error f
  | .ok (t2, suc, _) =>
    if suc then
      let fanRes := CeilingFan.update s.fanFlag t2 inp.now inp.fanCmdOk
      let blowRes := FurnaceBlower.update s.blowerLatch t2 inp.now
      .ok ({ tstat := t2, fanFlag := fanRes.1, blowerLatch := blowRes.1 },
           (fanRes.2 ++ blowRes.2).map (fun c => (inp.now, c)))
    else
      .ok ({ s with tstat := t2 }, [])

/-- Iterating the main loop over a list of inputs, collecting all
commands issued. -/
def mainRun : SysState → List LoopInput → Except Fault (SysState × List (Int × Cmd))
  | s, [] => .ok (s, [])
  | s, inp :: rest =>
    match mainStep s inp with
    | .error f => .error f
    | .ok (s2, cmds) =>
      match mainRun s2 rest with
      | .error f => .error f
      | .ok (s3, more) => .ok (s3, cmds ++ more)

/-- All commands a run issues, tagged with their iteration's clock value. -/
def runCmds (s : SysState) (ps : List LoopInput) : Except Fault (List (Int × Cmd)) :=
  (mainRun s ps).map (fun r => r.2)

/-- The ceiling-fan speed commands a run issues. -/
def runFanCmds (s : SysState) (ps : List LoopInput) : Except Fault (List (Int × Cmd)) :=
  (runCmds s ps).map (List.filter (fun c => c.2.isFan))

/-- The blower-mode commands a run issues. -/
def runBlowerCmds (s : SysState) (ps : List LoopInput) : Except Fault (List (Int × Cmd)) :=
  (runCmds s ps).map (List.filter (fun c => c.2.isBlower))

/-- A well-formed thermostat response body carrying the four required
fields with the types the device documentation promises. -/
def tstatBody (heat : Bool) (fmode : Int) : RawBody :=
  .json (.obj [("temp", .float 70), ("t_heat", .float 70),
               ("tstate", .int (if heat then 1 else 0)), ("fmode", .int fmode)])


/-! ## Helper lemmas -/

lemma mainRun_append (s : SysState) (l1 l2 : List LoopInput) :
    mainRun s (l1 ++ l2) =
      match mainRun s l1 with
      | .error f => .error f
      | .ok (s2, cmds) =>
        match mainRun s2 l2 with
        | .error f => .error f
        | .ok (s3, more) => .ok (s3, cmds ++ more) := by
  induction l1 generalizing s with
  | nil =>
    simp only [List.nil_append, mainRun]
    cases mainRun s l2 with
    | error f => rfl
    | ok r => obtain ⟨s3, more⟩ := r; simp
  | cons a l ih =>
    show mainRun s (a :: (l ++ l2)) = _
    simp only [mainRun]
    cases mainStep s a with
    | error f => rfl
    | ok r =>
      obtain ⟨s2, cmds⟩ := r
      dsimp only
      rw [ih s2]
      cases mainRun s2 l with
      | error f => rfl
      | ok r2 =>
        obtain ⟨s3, more⟩ := r2
        dsimp only
        cases mainRun s3 l2 with
        | error f => rfl
        | ok r3 =>
          obtain ⟨s4, m2⟩ := r3
          dsimp only
          simp [List.append_assoc]

/-- A reading used by concrete instances below: heat on, blower AUTO. -/
def exHeatOnReading : ThermostatState := ⟨70, 70, true, 0⟩

/-- A thermostat that has decoded `exHeatOnReading`, with a transition
recorded at clock value 1000. -/
def exTstat : Thermostat :=
  { previousState := some exHeatOnReading, lastTransitionTime := 1000,
    stateChanged := false, failCount := 0 }

/-! ## C7: scheduler sleep clamping -/

/-- C7: for a loop iteration that took `execTime` with the configured poll
period, the effective sleep is max(0, period - execTime): never negative,
and computed from this iteration alone (no catch-up of missed cycles). -/
theorem scheduler_sleep_clamped (execTime : Int) :
    loopSleepDuration execTime = max 0 (k_thermostatPollFrequencySeconds - execTime) ∧
    0 ≤ loopSleepDuration execTime := by
  unfold loopSleepDuration sleepFor
  exact ⟨max_comm _ _, le_max_right _ _⟩

/-! ## C9: decode of a wrong-typed field faults instead of failing soft -/

/-- A syntactically valid HTTP-200 body whose "temp" member is present but
holds a JSON string rather than a number. -/
def wrongTypedBody : RawBody :=
  .json (.obj [("temp", .str "x"), ("t_heat", .float 70),
               ("tstate", .int 1), ("fmode", .int 0)])

/-- C9 (code bug): an HTTP-200 body whose required field "temp" is present
but carries a JSON string faults inside ParseState (rapidjson GetFloat
precondition violation) instead of being treated like a transport failure;
a body with the field absent, by contrast, is correctly turned into the
soft-failure path (ParseState returns no value, Update counts a failure
and leaves the stored reading unchanged). -/
theorem parseState_wrong_typed_field_faults :
    Thermostat.parseState wrongTypedBody = .error .assertFailed ∧
    Thermostat.update exTstat 1015 200 wrongTypedBody = .error .assertFailed ∧
    Thermostat.parseState (.json (.obj [("t_heat", .float 70),
      ("tstate", .int 1), ("fmode", .int 0)])) = .ok none ∧
    Thermostat.update exTstat 1015 200 (.json (.obj [("t_heat", .float 70),
      ("tstate", .int 1), ("fmode", .int 0)])) =
      .ok ({ exTstat with failCount := 1 }, false, false) :=
  ⟨rfl, rfl, rfl, rfl⟩

/-! ## C6: time since transition before any transition -/

/-- C6 counterexample: with the thermostat constructed at clock value 1000
and no poll yet (so certainly no observed transition), a call at clock
value 1015 returns 375 seconds, not the configured trailing window of 360
seconds: the value is the window plus the time elapsed since start-up. -/
theorem timeSinceTransition_startup_counterexample :
    Thermostat.getTimeSinceTransition (Thermostat.init 1000) 1015 = 375 ∧
    (375 : Int) ≠ k_runBlowerFanAfterHeatOff ∧
    (Thermostat.init 1000).previousState = none :=
  ⟨rfl, by decide, rfl⟩

/-- C6 amended: while lastTransitionTime still holds its start-up value
(start time minus the trailing window) and that value is not the clock
epoch sentinel, timeSinceTransition returns the elapsed time since
start-up plus the trailing window, hence at least the trailing window, so
the blower override's engage condition is false on any poll with no
transition flagged and the override is not engaged on first boot;
moreover any update that does not flag a transition preserves
lastTransitionTime. -/
theorem timeSinceTransition_startup_amended (t : Thermostat) (t0 now : Int)
    (hlt : t.lastTransitionTime = t0 - k_runBlowerFanAfterHeatOff)
    (h0 : t0 ≠ k_runBlowerFanAfterHeatOff) (hle : t0 ≤ now) :
    t.getTimeSinceTransition now = now - t0 + k_runBlowerFanAfterHeatOff ∧
    k_runBlowerFanAfterHeatOff ≤ t.getTimeSinceTransition now ∧
    (t.stateChangedQ = false → FurnaceBlower.engageCond t now = false) ∧
    (Thermostat.init t0).lastTransitionTime = t0 - k_runBlowerFanAfterHeatOff ∧
    (∀ now2 status body t2 suc lg,
      t.update now2 status body = .ok (t2, suc, lg) → t2.stateChanged = false →
      t2.lastTransitionTime = t.lastTransitionTime) := by
  have hk : k_runBlowerFanAfterHeatOff = 360 := rfl
  have hne : t.lastTransitionTime ≠ 0 := by rw [hlt]; omega
  have hval : t.getTimeSinceTransition now = now - t0 + k_runBlowerFanAfterHeatOff := by
    unfold Thermostat.getTimeSinceTransition
    rw [if_neg hne, hlt]; omega
  refine ⟨hval, by omega, ?_, rfl, ?_⟩
  · intro hsc
    unfold FurnaceBlower.engageCond
    rw [hsc, hval]
    have hdec : decide (now - t0 + k_runBlowerFanAfterHeatOff < k_runBlowerFanAfterHeatOff)
        = false := by
      rw [decide_eq_false_iff_not]; omega
    rw [hdec]
    simp
  · intro now2 status body t2 suc lg hup hsc
    unfold Thermostat.update at hup
    by_cases hs : (status != 200) = true
    · rw [if_pos hs] at hup
      simp only [Except.ok.injEq, Prod.mk.injEq] at hup
      obtain ⟨ht2, -, -⟩ := hup
      subst ht2; rfl
    · rw [if_neg hs] at hup
      cases hp : Thermostat.parseState body with
      | error f => rw [hp] at hup; exact absurd hup (by simp)
      | ok o =>
        rw [hp] at hup
        cases o with
        | none =>
          simp only [Except.ok.injEq, Prod.mk.injEq] at hup
          obtain ⟨ht2, -, -⟩ := hup
          subst ht2; rfl
        | some ns =>
          simp only [Except.ok.injEq, Prod.mk.injEq] at hup
          obtain ⟨ht2, -, -⟩ := hup
          subst ht2
          simp only at hsc ⊢
          rw [hsc]
          simp

/-- C6 amended witness at concrete inputs: thermostat constructed at
clock value 1000, queried at clock value 1090. -/
theorem timeSinceTransition_startup_amended_witness :
    (Thermostat.init 1000).getTimeSinceTransition 1090 =
      1090 - 1000 + k_runBlowerFanAfterHeatOff ∧
    k_runBlowerFanAfterHeatOff ≤ (Thermostat.init 1000).getTimeSinceTransition 1090 := by
  have h := timeSinceTransition_startup_amended (Thermostat.init 1000) 1000 1090
    rfl (by decide) (by decide)
  exact ⟨h.1, h.2.1⟩

/-! ## Blower branch lemmas shared by the override claims -/

lemma FurnaceBlower.update_engage (latch : Option Int) (tstat : Thermostat) (now : Int)
    (h : FurnaceBlower.engageCond tstat now = true) :
    FurnaceBlower.update latch tstat now =
      ((if latch.isNone && tstat.getBlowerState != -1 then some tstat.getBlowerState
        else latch),
       if tstat.getBlowerState != BLOWER_ON then [Cmd.setBlower BLOWER_ON] else []) := by
  unfold FurnaceBlower.engageCond at h
  simp only [FurnaceBlower.update, h, if_true]

lemma FurnaceBlower.update_disengage (latch : Option Int) (tstat : Thermostat) (now : Int)
    (h : FurnaceBlower.engageCond tstat now = false) :
    FurnaceBlower.update latch tstat now = FurnaceBlower.disengageStep latch tstat := by
  unfold FurnaceBlower.engageCond at h
  unfold FurnaceBlower.update FurnaceBlower.disengageStep
  rw [if_neg (by rw [h]; simp)]

/-! ## C1: when the override branch is taken -/

/-- A thermostat that has decoded a heat-off reading with blower AUTO,
with a transition recorded at clock value 1000. -/
def exTstatOff : Thermostat :=
  { previousState := some ⟨70, 70, false, 0⟩, lastTransitionTime := 1000,
    stateChanged := false, failCount := 0 }

/-- C1: FurnaceBlower::Update takes the override (engage) branch — which
captures the latch once per episode when none is held and the reported
mode is valid, and issues set-mode(ON) whenever the current mode is not
ON — exactly when heat is inactive AND (a transition occurred this poll
OR time since transition < tail window); otherwise it takes the disengage
branch.  Heat being active forces the condition false regardless of
elapsed time, and a reading with time since transition exactly equal to
the tail window (with no transition flagged) also falls into disengage,
the comparison being strict. -/
theorem blower_override_branch (latch : Option Int) (tstat : Thermostat) (now : Int) :
    (FurnaceBlower.engageCond tstat now = true →
      FurnaceBlower.update latch tstat now =
        ((if latch.isNone && tstat.getBlowerState != -1 then some tstat.getBlowerState
          else latch),
         if tstat.getBlowerState != BLOWER_ON then [Cmd.setBlower BLOWER_ON] else []))
    ∧ (FurnaceBlower.engageCond tstat now = false →
      FurnaceBlower.update latch tstat now = FurnaceBlower.disengageStep latch tstat)
    ∧ (tstat.isFurnaceOn = true → FurnaceBlower.engageCond tstat now = false)
    ∧ (tstat.stateChangedQ = false →
        tstat.getTimeSinceTransition now = k_runBlowerFanAfterHeatOff →
        FurnaceBlower.engageCond tstat now = false) := by
  refine ⟨FurnaceBlower.update_engage latch tstat now,
          FurnaceBlower.update_disengage latch tstat now, ?_, ?_⟩
  · intro h
    simp [FurnaceBlower.engageCond, h]
  · intro h1 h2
    simp [FurnaceBlower.engageCond, h1, h2]

/-- C1 witness: heat off, transition 100 seconds ago, no latch held,
blower reporting AUTO: the engage condition holds, the latch captures
AUTO and an ON command is issued. -/
theorem blower_override_branch_witness :
    FurnaceBlower.engageCond exTstatOff 1100 = true ∧
    FurnaceBlower.update none exTstatOff 1100 = (some 0, [Cmd.setBlower 2]) := by
  refine ⟨by decide, ?_⟩
  have h := (blower_override_branch none exTstatOff 1100).1 (by decide)
  rw [h]; decide

/-! ## C4: the latch invariant -/

lemma FurnaceBlower.disengageStep_some (m : Int) (tstat : Thermostat) :
    FurnaceBlower.disengageStep (some m) tstat =
      if tstat.getBlowerState == m then (none, []) else (some m, [Cmd.setBlower m]) := rfl

/-- C4: across every tick of FurnaceBlower::Update, a held latch is never
overwritten with a different value (captured at most once per episode);
the latch is cleared only on a tick where the reported blower mode equals
the latched value, which can only happen in the disengage branch; in the
disengage branch with a latch held, clearing happens exactly when the
reported mode equals the latched value and otherwise a restore command
for the latched mode is issued (and the latch kept, retrying every cycle
until the device confirms); and a latch comes into existence only through
the engage branch capturing the currently reported (valid) mode. -/
theorem blower_latch_invariant (latch : Option Int) (tstat : Thermostat) (now : Int) :
    (∀ m, latch = some m →
      (FurnaceBlower.update latch tstat now).1 = some m ∨
      (FurnaceBlower.update latch tstat now).1 = none)
    ∧ (∀ m, latch = some m → (FurnaceBlower.update latch tstat now).1 = none →
      tstat.getBlowerState = m ∧ FurnaceBlower.engageCond tstat now = false)
    ∧ (FurnaceBlower.engageCond tstat now = false → ∀ m, latch = some m →
      (((FurnaceBlower.update latch tstat now).1 = none ↔ tstat.getBlowerState = m) ∧
       (tstat.getBlowerState ≠ m →
         (FurnaceBlower.update latch tstat now).2 = [Cmd.setBlower m] ∧
         (FurnaceBlower.update latch tstat now).1 = some m)))
    ∧ (∀ m, latch = none → (FurnaceBlower.update latch tstat now).1 = some m →
      FurnaceBlower.engageCond tstat now = true ∧ tstat.getBlowerState = m ∧ m ≠ -1) := by
  cases hc : FurnaceBlower.engageCond tstat now with
  | true =>
    have hup := FurnaceBlower.update_engage latch tstat now hc
    refine ⟨?_, ?_, ?_, ?_⟩
    · intro m hm
      subst hm
      rw [hup]
      simp
    · intro m hm h1
      subst hm
      rw [hup] at h1
      simp at h1
    · intro h
      simp at h
    · intro m hm hsome
      subst hm
      rw [hup] at hsome
      simp only [Option.isNone_none, Bool.true_and] at hsome
      by_cases hg : (tstat.getBlowerState != -1) = true
      · rw [if_pos hg] at hsome
        have hgm : tstat.getBlowerState = m := by simpa using hsome
        refine ⟨rfl, hgm, ?_⟩
        rw [← hgm]
        simpa using hg
      · rw [if_neg hg] at hsome
        cases hsome
  | false =>
    have hup := FurnaceBlower.update_disengage latch tstat now hc
    refine ⟨?_, ?_, ?_, ?_⟩
    · intro m hm
      subst hm
      rw [hup, FurnaceBlower.disengageStep_some]
      by_cases hg : (tstat.getBlowerState == m) = true
      · rw [if_pos hg]; right; rfl
      · rw [if_neg hg]; left; rfl
    · intro m hm h1
      subst hm
      rw [hup, FurnaceBlower.disengageStep_some] at h1
      by_cases hg : (tstat.getBlowerState == m) = true
      · exact ⟨by simpa using hg, rfl⟩
      · rw [if_neg hg] at h1
        simp at h1
    · intro _ m hm
      subst hm
      rw [hup, FurnaceBlower.disengageStep_some]
      constructor
      · by_cases hg : (tstat.getBlowerState == m) = true
        · rw [if_pos hg]
          exact ⟨fun _ => by simpa using hg, fun _ => rfl⟩
        · rw [if_neg hg]
          constructor
          · intro h
            exact absurd h (by simp)
          · intro h
            exact absurd (show (tstat.getBlowerState == m) = true by simpa using h) hg
      · intro hne
        rw [if_neg (show ¬(tstat.getBlowerState == m) = true by simpa using hne)]
        exact ⟨rfl, rfl⟩
    · intro m hm hsome
      subst hm
      rw [hup] at hsome
      have hred : (FurnaceBlower.disengageStep none tstat).1 = none := rfl
      rw [hred] at hsome
      simp at hsome

/-- C4 witness: heat on (disengage), latch holding CIRCULATE while the
device reports AUTO: the latch is not cleared and a restore command for
the latched mode is issued. -/
theorem blower_latch_invariant_witness :
    ((FurnaceBlower.update (some 1) exTstat 1100).1 = none ↔
      Thermostat.getBlowerState exTstat = 1) ∧
    (FurnaceBlower.update (some 1) exTstat 1100).2 = [Cmd.setBlower 1] := by
  have h := (blower_latch_invariant (some 1) exTstat 1100).2.2.1 (by decide) 1 rfl
  exact ⟨h.1, (h.2 (by decide)).1⟩

/-! ## C2: at most one applied speed change per stable run -/

/-- One CeilingFan::Update invocation's inputs: the thermostat as seen
this iteration, the clock value, and whether a speed command issued this
iteration would succeed. -/
structure FanStep where
  tstat : Thermostat
  now : Int
  cmdOk : Bool

/-- Folding CeilingFan::Update over consecutive iterations: final flag,
all commands issued, and the number of successfully applied commands. -/
def CeilingFan.run : Bool → List FanStep → Bool × List Cmd × Nat
  | f, [] => (f, [], 0)
  | f, s :: rest =>
    let r := CeilingFan.update f s.tstat s.now s.cmdOk
    let applied := if !r.2.isEmpty && s.cmdOk then 1 else 0
    let rest2 := CeilingFan.run r.1 rest
    (rest2.1, r.2 ++ rest2.2.1, applied + rest2.2.2)

lemma CeilingFan.run_flag_true :
    ∀ (steps : List FanStep), (∀ s ∈ steps, s.tstat.stateChangedQ = false) →
    CeilingFan.run true steps = (true, [], 0) := by
  intro steps
  induction steps with
  | nil => intro _; rfl
  | cons a rest ih =>
    intro h
    have ha := h a (List.mem_cons_self a rest)
    have hrest : ∀ s ∈ rest, s.tstat.stateChangedQ = false :=
      fun s hs => h s (List.mem_cons_of_mem a hs)
    have hupd : CeilingFan.update true a.tstat a.now a.cmdOk = (true, []) := by
      unfold CeilingFan.update
      rw [if_neg (by rw [ha]; simp), if_neg (by simp)]
    simp only [CeilingFan.run, hupd, ih hrest]
    simp

lemma CeilingFan.run_applied_le_one :
    ∀ (steps : List FanStep), (∀ s ∈ steps, s.tstat.stateChangedQ = false) →
    ∀ b, (CeilingFan.run b steps).2.2 ≤ 1 := by
  intro steps
  induction steps with
  | nil => intro _ b; simp [CeilingFan.run]
  | cons a rest ih =>
    intro h b
    have ha := h a (List.mem_cons_self a rest)
    have hrest : ∀ s ∈ rest, s.tstat.stateChangedQ = false :=
      fun s hs => h s (List.mem_cons_of_mem a hs)
    cases b with
    | true =>
      have hupd : CeilingFan.update true a.tstat a.now a.cmdOk = (true, []) := by
        unfold CeilingFan.update
        rw [if_neg (by rw [ha]; simp), if_neg (by simp)]
      simp only [CeilingFan.run, hupd, CeilingFan.run_flag_true rest hrest]
      simp
    | false =>
      by_cases hcond : (!false && decide (a.tstat.getTimeSinceTransition a.now >
          (if a.tstat.isFurnaceOn then k_ceilingFanOnDelay else k_ceilingFanOffDelay))) = true
      · have hupd : CeilingFan.update false a.tstat a.now a.cmdOk =
            (a.cmdOk, [Cmd.setFanSpeed (if a.tstat.isFurnaceOn then k_heatOnFanSpeed
              else k_heatOffFanSpeed)]) := by
          unfold CeilingFan.update
          rw [if_neg (by rw [ha]; simp), if_pos hcond]
        simp only [CeilingFan.run, hupd]
        cases hok : a.cmdOk with
        | true =>
          simp only [CeilingFan.run_flag_true rest hrest]
          simp
        | false =>
          simpa using ih hrest false
      · have hupd : CeilingFan.update false a.tstat a.now a.cmdOk = (false, []) := by
          unfold CeilingFan.update
          rw [if_neg (by rw [ha]; simp), if_neg hcond]
        simp only [CeilingFan.run, hupd]
        simpa using ih hrest false

/-- C2: over any run of iterations in which no poll flags a transition
and the heat call keeps one value, the synchronizer applies at most one
successful speed change: once the flag is set (a command succeeded), the
remainder of the run issues no command at all and applies nothing; the
number of successfully applied commands over the run is at most one from
any starting flag; a failed command leaves the flag false (so it is
retried); and any iteration that issues a command whose request succeeds
ends with the flag true. -/
theorem ceiling_fan_single_application (steps : List FanStep) (heatVal : Bool)
    (hnt : ∀ s ∈ steps, s.tstat.stateChangedQ = false)
    (hheat : ∀ s ∈ steps, s.tstat.isFurnaceOn = heatVal) :
    ((CeilingFan.run true steps).2.1 = [] ∧ (CeilingFan.run true steps).2.2 = 0) ∧
    (∀ b, (CeilingFan.run b steps).2.2 ≤ 1) ∧
    (∀ s : FanStep, s.cmdOk = false →
      (CeilingFan.update false s.tstat s.now s.cmdOk).1 = false) ∧
    (∀ (f : Bool) (s : FanStep),
      (CeilingFan.update f s.tstat s.now true).2 ≠ [] →
      (CeilingFan.update f s.tstat s.now true).1 = true) := by
  refine ⟨?_, CeilingFan.run_applied_le_one steps hnt, ?_, ?_⟩
  · rw [CeilingFan.run_flag_true steps hnt]
    exact ⟨rfl, rfl⟩
  · intro s hok
    unfold CeilingFan.update
    by_cases h1 : s.tstat.stateChangedQ = true
    · rw [if_pos h1]
    · rw [if_neg h1]
      by_cases h2 : (!false && decide (s.tstat.getTimeSinceTransition s.now >
          (if s.tstat.isFurnaceOn then k_ceilingFanOnDelay else k_ceilingFanOffDelay))) = true
      · rw [if_pos h2]
        exact hok
      · rw [if_neg h2]
  · intro f s
    unfold CeilingFan.update
    by_cases h1 : s.tstat.stateChangedQ = true
    · rw [if_pos h1]
      intro h
      simp at h
    · rw [if_neg h1]
      by_cases h2 : (!f && decide (s.tstat.getTimeSinceTransition s.now >
          (if s.tstat.isFurnaceOn then k_ceilingFanOnDelay else k_ceilingFanOffDelay))) = true
      · rw [if_pos h2]
        intro _
        rfl
      · rw [if_neg h2]
        intro h
        simp at h

/-- C2 witness: a single no-transition iteration 400 seconds after the
last transition with a succeeding command: the absorbing-flag and
at-most-one-application facts at concrete inputs. -/
theorem ceiling_fan_single_application_witness :
    ((CeilingFan.run true [⟨exTstatOff, 1400, true⟩]).2.1 = [] ∧
      (CeilingFan.run true [⟨exTstatOff, 1400, true⟩]).2.2 = 0) ∧
    (CeilingFan.run false [⟨exTstatOff, 1400, true⟩]).2.2 ≤ 1 := by
  have h := ceiling_fan_single_application [⟨exTstatOff, 1400, true⟩] false
    (by decide) (by decide)
  exact ⟨h.1, h.2.1 false⟩

/-! ## C3: the transition flag -/

lemma Thermostat.update_success (t : Thermostat) (now : Int) (body : RawBody)
    (r : ThermostatState) (hp : Thermostat.parseState body = .ok (some r)) :
    t.update now 200 body =
      .ok ({ previousState := some r
             lastTransitionTime :=
               if (match t.previousState with
                   | some p => p.isHeatOn != r.isHeatOn
                   | none => false) then now else t.lastTransitionTime
             stateChanged := (match t.previousState with
               | some p => p.isHeatOn != r.isHeatOn
               | none => false)
             failCount := 0 }, true, false) := by
  unfold Thermostat.update
  rw [if_neg (by simp), hp]

lemma Thermostat.update_previousState (t : Thermostat) (now status : Int) (body : RawBody)
    (t2 : Thermostat) (suc lg : Bool) (h : t.update now status body = .ok (t2, suc, lg)) :
    t2.previousState =
      if status = 200 then
        match Thermostat.parseState body with
        | .ok (some r) => some r
        | _ => t.previousState
      else t.previousState := by
  unfold Thermostat.update at h
  by_cases hs : (status != 200) = true
  · rw [if_pos hs] at h
    simp only [Except.ok.injEq, Prod.mk.injEq] at h
    obtain ⟨ht2, -, -⟩ := h
    subst ht2
    rw [if_neg (by simpa using hs)]
  · rw [if_neg hs] at h
    have hs2 : status = 200 := by simpa using hs
    rw [if_pos hs2]
    cases hp : Thermostat.parseState body with
    | error f => rw [hp] at h; simp at h
    | ok o =>
      rw [hp] at h
      cases o with
      | none =>
        simp only [Except.ok.injEq, Prod.mk.injEq] at h
        obtain ⟨ht2, -, -⟩ := h
        subst ht2
        rfl
      | some ns =>
        simp only [Except.ok.injEq, Prod.mk.injEq] at h
        obtain ⟨ht2, -, -⟩ := h
        subst ht2
        rfl

lemma specLastDecoded_cons (acc : Option ThermostatState) (p : PollStep)
    (rest : List PollStep) :
    specLastDecoded acc (p :: rest) =
      specLastDecoded
        (if p.status = 200 then
          match Thermostat.parseState p.body with
          | .ok (some r) => some r
          | _ => acc
         else acc) rest := by
  simp only [specLastDecoded]
  by_cases hs : p.status = 200
  · rw [if_pos hs, if_pos hs]
    cases hp : Thermostat.parseState p.body with
    | error f => rfl
    | ok o => cases o <;> rfl
  · rw [if_neg hs, if_neg hs]

lemma Thermostat.runPolls_previousState :
    ∀ (ps : List PollStep) (t t2 : Thermostat) (outs : List (Bool × Bool)),
      Thermostat.runPolls t ps = .ok (t2, outs) →
      t2.previousState = specLastDecoded t.previousState ps := by
  intro ps
  induction ps with
  | nil =>
    intro t t2 outs h
    simp only [Thermostat.runPolls] at h
    obtain ⟨h1, -⟩ : t = t2 ∧ ([] : List (Bool × Bool)) = outs := by simpa using h
    subst h1
    rfl
  | cons p rest ih =>
    intro t t2 outs h
    simp only [Thermostat.runPolls] at h
    cases hu : t.update p.now p.status p.body with
    | error f => rw [hu] at h; simp at h
    | ok r =>
      obtain ⟨tm, suc, lg⟩ := r
      rw [hu] at h
      dsimp only at h
      cases hr : Thermostat.runPolls tm rest with
      | error f => rw [hr] at h; simp at h
      | ok r2 =>
        obtain ⟨t3, outs2⟩ := r2
        rw [hr] at h
        dsimp only at h
        obtain ⟨h1, -⟩ : t3 = t2 ∧ (suc, lg) :: outs2 = outs := by simpa using h
        subst h1
        rw [ih tm _ outs2 hr, specLastDecoded_cons]
        congr 1
        exact Thermostat.update_previousState t p.now p.status p.body tm suc lg hu

/-- C3: on a successful poll the transition flag is set exactly when the
decoded heat call differs from the previous successfully decoded
reading's (held in previousState, which the last conjunct shows always
equals the last successfully decoded reading of any poll sequence); it is
false when there is no prior reading, and every poll that returns failure
recomputes the flag to false (never sticky). -/
theorem transition_flag_characterisation :
    (∀ (t : Thermostat) (now : Int) (body : RawBody) (r : ThermostatState),
      Thermostat.parseState body = .ok (some r) →
      ∃ t2, t.update now 200 body = .ok (t2, true, false) ∧
        t2.stateChanged = (match t.previousState with
          | some p => p.isHeatOn != r.isHeatOn
          | none => false))
    ∧ (∀ (t : Thermostat) (now status : Int) (body : RawBody) (t2 : Thermostat) (lg : Bool),
      t.update now status body = .ok (t2, false, lg) → t2.stateChanged = false)
    ∧ (∀ (t : Thermostat) (now : Int) (body : RawBody) (r : ThermostatState),
      Thermostat.parseState body = .ok (some r) → t.previousState = none →
      ∃ t2, t.update now 200 body = .ok (t2, true, false) ∧ t2.stateChanged = false)
    ∧ (∀ (ps : List PollStep) (t t2 : Thermostat) (outs : List (Bool × Bool)),
      Thermostat.runPolls t ps = .ok (t2, outs) →
      t2.previousState = specLastDecoded t.previousState ps) := by
  refine ⟨?_, ?_, ?_, Thermostat.runPolls_previousState⟩
  · intro t now body r hp
    exact ⟨_, Thermostat.update_success t now body r hp, rfl⟩
  · intro t now status body t2 lg h
    unfold Thermostat.update at h
    by_cases hs : (status != 200) = true
    · rw [if_pos hs] at h
      simp only [Except.ok.injEq, Prod.mk.injEq] at h
      obtain ⟨ht2, -, -⟩ := h
      subst ht2
      rfl
    · rw [if_neg hs] at h
      cases hp : Thermostat.parseState body with
      | error f => rw [hp] at h; simp at h
      | ok o =>
        rw [hp] at h
        cases o with
        | none =>
          simp only [Except.ok.injEq, Prod.mk.injEq] at h
          obtain ⟨ht2, -, -⟩ := h
          subst ht2
          rfl
        | some ns => simp at h
  · intro t now body r hp hprev
    refine ⟨_, Thermostat.update_success t now body r hp, ?_⟩
    show (match t.previousState with
      | some p => p.isHeatOn != r.isHeatOn
      | none => false) = false
    rw [hprev]

/-- C3 witness: a failed poll (HTTP 500) from a thermostat holding a
reading leaves the recomputed transition flag false. -/
theorem transition_flag_witness :
    Thermostat.stateChanged { exTstat with failCount := 1 } = false :=
  transition_flag_characterisation.2.1 exTstat 1100 500 RawBody.invalid
    { exTstat with failCount := 1 } false rfl

/-! ## C8: consecutive-failure handling -/

/-- Specification-side observer: the (success, logged) outputs of a run of
n consecutive failed polls starting from failure counter c. -/
def specFailureOutputs : Nat → Nat → List (Bool × Bool)
  | _, 0 => []
  | c, n + 1 => (false, (c + 1) % 6 == 0) :: specFailureOutputs (c + 1) n

lemma Thermostat.update_failure (t : Thermostat) (p : PollStep)
    (hfail : p.status ≠ 200 ∨ Thermostat.parseState p.body = .ok none) :
    t.update p.now p.status p.body =
      .ok ({ t with stateChanged := false, failCount := t.failCount + 1 },
           false, (t.failCount + 1) % 6 == 0) := by
  unfold Thermostat.update
  rcases hfail with hs | hp
  · rw [if_pos (by simpa using hs)]
  · by_cases hs : (p.status != 200) = true
    · rw [if_pos hs]
    · rw [if_neg hs, hp]

/-- C8: a run of consecutive failed polls (non-200 status or undecodable
body) leaves the stored reading untouched, returns failure each time while
never faulting, advances the failure counter by one per poll, and emits
the elevated-severity log exactly on polls where the incremented counter
is a multiple of six; a successful decode resets the counter to zero and
replaces the reading; in particular twelve consecutive failures from a
zero counter log exactly on the 6th and the 12th. -/
theorem thermostat_failure_handling :
    (∀ (t : Thermostat) (ps : List PollStep),
      (∀ p ∈ ps, p.status ≠ 200 ∨ Thermostat.parseState p.body = .ok none) →
      Thermostat.runPolls t ps =
        .ok ({ t with
               stateChanged := if ps.isEmpty then t.stateChanged else false
               failCount := t.failCount + ps.length },
             specFailureOutputs t.failCount ps.length))
    ∧ (∀ (t : Thermostat) (now : Int) (body : RawBody) (r : ThermostatState),
      Thermostat.parseState body = .ok (some r) →
      ∃ t2, t.update now 200 body = .ok (t2, true, false) ∧ t2.failCount = 0 ∧
        t2.previousState = some r)
    ∧ ((specFailureOutputs 0 12).map (fun o => o.2) =
        [false, false, false, false, false, true, false, false, false, false, false, true]) := by
  refine ⟨?_, ?_, by decide⟩
  · intro t ps
    induction ps generalizing t with
    | nil =>
      intro _
      simp only [Thermostat.runPolls, List.isEmpty_nil, if_true, List.length_nil,
        Nat.add_zero, specFailureOutputs]
    | cons p rest ih =>
      intro hf
      have hp := hf p (List.mem_cons_self p rest)
      have hrest : ∀ q ∈ rest, q.status ≠ 200 ∨ Thermostat.parseState q.body = .ok none :=
        fun q hq => hf q (List.mem_cons_of_mem p hq)
      simp only [Thermostat.runPolls, Thermostat.update_failure t p hp]
      rw [ih _ hrest]
      have harith : t.failCount + 1 + rest.length = t.failCount + (rest.length + 1) := by omega
      simp [harith, specFailureOutputs]
  · intro t now body r hp
    exact ⟨_, Thermostat.update_success t now body r hp, rfl, rfl⟩

/-- C8 witness: six consecutive HTTP-500 polls from a zero counter leave
the stored reading in place, count to six, and log exactly once, on the
sixth. -/
theorem thermostat_failure_handling_witness :
    Thermostat.runPolls exTstat (List.replicate 6 ⟨2000, 500, RawBody.invalid⟩) =
      .ok ({ exTstat with failCount := 6 },
           [(false, false), (false, false), (false, false), (false, false), (false, false),
            (false, true)]) := by
  have h := thermostat_failure_handling.1 exTstat (List.replicate 6 ⟨2000, 500, RawBody.invalid⟩)
    (fun p hp => Or.inl (by rw [List.eq_of_mem_replicate hp]; decide))
  rw [h]
  rfl

/-! ## C10: the -1 sentinel and reachability of the latch-capture guard -/

lemma specLastDecoded_mem :
    ∀ (ps : List PollStep) (acc : Option ThermostatState) (r : ThermostatState),
      specLastDecoded acc ps = some r →
      acc = some r ∨ ∃ p ∈ ps, p.status = 200 ∧ Thermostat.parseState p.body = .ok (some r) := by
  intro ps
  induction ps with
  | nil => intro acc r h; exact Or.inl h
  | cons p rest ih =>
    intro acc r h
    rw [specLastDecoded_cons] at h
    rcases ih _ r h with hacc | ⟨q, hq, hqs⟩
    · by_cases hs : p.status = 200
      · rw [if_pos hs] at hacc
        cases hp : Thermostat.parseState p.body with
        | error f =>
          rw [hp] at hacc
          exact Or.inl hacc
        | ok o =>
          cases o with
          | none =>
            rw [hp] at hacc
            exact Or.inl hacc
          | some r2 =>
            rw [hp] at hacc
            have hr2 : r2 = r := by simpa using hacc
            exact Or.inr ⟨p, List.mem_cons_self p rest, hs, by rw [hp, hr2]⟩
      · rw [if_neg hs] at hacc
        exact Or.inl hacc
    · exact Or.inr ⟨q, List.mem_cons_of_mem p hq, hqs⟩

/-- C10: over any poll sequence from a freshly constructed thermostat
whose successfully decoded readings carry the documented fmode range 0..2,
GetBlowerState reports the -1 sentinel exactly when no poll has
successfully decoded; any single successful decode with a non-negative
fmode makes the reported mode non-sentinel; under those conditions the
blower override's latch-capture validity guard always passes (its failure
branch is unreachable after a successful poll); and the main loop ticks no
controller on a failed poll. -/
theorem blower_state_sentinel (t0 : Int) (ps : List PollStep) (t2 : Thermostat)
    (outs : List (Bool × Bool))
    (hrun : Thermostat.runPolls (Thermostat.init t0) ps = .ok (t2, outs))
    (hvalid : ∀ p ∈ ps, ∀ r, Thermostat.parseState p.body = .ok (some r) →
      0 ≤ r.blowerState ∧ r.blowerState ≤ 2) :
    (t2.getBlowerState = -1 ↔ specLastDecoded none ps = none)
    ∧ (∀ (t : Thermostat) (now : Int) (body : RawBody) (r : ThermostatState) (t3 : Thermostat)
        (suc lg : Bool),
      Thermostat.parseState body = .ok (some r) → 0 ≤ r.blowerState →
      t.update now 200 body = .ok (t3, suc, lg) →
      suc = true ∧ t3.getBlowerState = r.blowerState ∧ t3.getBlowerState ≠ -1)
    ∧ (∀ (t : Thermostat) (now : Int), t.getBlowerState ≠ -1 →
      FurnaceBlower.engageCond t now = true →
      (FurnaceBlower.update none t now).1 = some t.getBlowerState)
    ∧ (∀ (s : SysState) (inp : LoopInput) (t3 : Thermostat) (lg : Bool),
      s.tstat.update inp.now inp.status inp.body = .ok (t3, false, lg) →
      mainStep s inp = .ok ({ s with tstat := t3 }, [])) := by
  have hprev := Thermostat.runPolls_previousState ps (Thermostat.init t0) t2 outs hrun
  have hinit : (Thermostat.init t0).previousState = none := rfl
  rw [hinit] at hprev
  refine ⟨?_, ?_, ?_, ?_⟩
  · constructor
    · intro h
      cases hps : t2.previousState with
      | none => rw [← hprev, hps]
      | some r =>
        exfalso
        have hsd : specLastDecoded none ps = some r := by rw [← hprev, hps]
        rcases specLastDecoded_mem ps none r hsd with hc | ⟨p, hp, hs, hparse⟩
        · simp at hc
        · have hv := hvalid p hp r hparse
          have hgb : t2.getBlowerState = r.blowerState := by
            unfold Thermostat.getBlowerState
            rw [hps]
          rw [hgb] at h
          omega
    · intro h
      have hnone : t2.previousState = none := by rw [hprev, h]
      unfold Thermostat.getBlowerState
      rw [hnone]
  · intro t now body r t3 suc lg hp hge hup
    rw [Thermostat.update_success t now body r hp] at hup
    simp only [Except.ok.injEq, Prod.mk.injEq] at hup
    obtain ⟨ht3, hsuc, -⟩ := hup
    have hgb : t3.getBlowerState = r.blowerState := by rw [← ht3]; rfl
    exact ⟨hsuc.symm, hgb, by rw [hgb]; omega⟩
  · intro t now hgbs hc
    rw [FurnaceBlower.update_engage none t now hc]
    simp only [Option.isNone_none, Bool.true_and]
    rw [if_pos (by simpa using hgbs)]
  · intro s inp t3 lg hup
    unfold mainStep
    rw [hup]
    dsimp only
    rw [if_neg (by simp)]

/-- C10 witness: one successful heat-on poll from a thermostat constructed
at clock value 500: both sides of the sentinel equivalence are false. -/
theorem blower_state_sentinel_witness :
    (Thermostat.getBlowerState { previousState := some ⟨70, 70, true, 0⟩
                                 lastTransitionTime := 140
                                 stateChanged := false
                                 failCount := 0 } = -1 ↔
      specLastDecoded none [⟨600, 200, tstatBody true 0⟩] = none) := by
  exact (blower_state_sentinel 500 [⟨600, 200, tstatBody true 0⟩] _ _ rfl
    (by
      intro p hp r hr
      rw [List.mem_singleton] at hp
      subst hp
      have heq : Thermostat.parseState (tstatBody true 0) =
          .ok (some (⟨70, 70, true, 0⟩ : ThermostatState)) := rfl
      rw [heq] at hr
      simp only [Except.ok.injEq, Option.some.injEq] at hr
      rw [← hr]
      decide)).1

/-! ## C5: the configured trace scenario -/

/-- A post-transition loop iteration: a poll at clock value 1000 + d with
heat still off, the blower reporting ON (the override's forced mode), and
fan commands succeeding. -/
def c5Input (d : Int) : LoopInput := ⟨1000 + d, 200, tstatBody false 2, true⟩

/-- The scenario trace: a heat-on poll at clock value 600, the heat-off
transition poll at clock value 1000 (t = 0 of the scenario), then polls at
offsets ds after the transition. -/
def c5Trace (ds : List Int) : List LoopInput :=
  (⟨600, 200, tstatBody true 0, true⟩ : LoopInput) ::
  (⟨1000, 200, tstatBody false 0, true⟩ : LoopInput) :: ds.map c5Input

/-- The system state during the post-transition phase: fan flag f, last
decoded fmode fm, transition flag sc, blower latch holding AUTO. -/
def c5MidState (f : Bool) (fm : Int) (sc : Bool) : SysState :=
  { tstat := { previousState := some ⟨70, 70, false, fm⟩
               lastTransitionTime := 1000
               stateChanged := sc
               failCount := 0 }
    fanFlag := f
    blowerLatch := some 0 }

lemma c5_tsT (fm d : Int) (sc : Bool) :
    Thermostat.getTimeSinceTransition
      { previousState := some ⟨70, 70, false, fm⟩
        lastTransitionTime := 1000
        stateChanged := sc
        failCount := 0 } (1000 + d) = d := by
  unfold Thermostat.getTimeSinceTransition
  show (if (1000 : Int) = 0 then 0 else 1000 + d - 1000) = d
  rw [if_neg (show ¬((1000 : Int) = 0) by norm_num)]
  omega

lemma c5_fan (f : Bool) (d : Int) :
    CeilingFan.update f
      { previousState := some ⟨70, 70, false, 2⟩
        lastTransitionTime := 1000
        stateChanged := false
        failCount := 0 } (1000 + d) true =
      (f || decide (d > k_ceilingFanOffDelay),
       if !f && decide (d > k_ceilingFanOffDelay)
         then [Cmd.setFanSpeed k_heatOffFanSpeed] else []) := by
  unfold CeilingFan.update
  rw [c5_tsT 2 d false]
  rw [if_neg (show ¬(Thermostat.stateChangedQ
    { previousState := some ⟨70, 70, false, 2⟩
      lastTransitionTime := 1000
      stateChanged := false
      failCount := 0 } = true) by decide)]
  rw [show Thermostat.isFurnaceOn
    { previousState := some ⟨70, 70, false, 2⟩
      lastTransitionTime := 1000
      stateChanged := false
      failCount := 0 } = false from rfl]
  cases f with
  | true => simp
  | false =>
    by_cases hd : k_ceilingFanOffDelay < d
    · simp [hd]
    · simp [hd]

lemma c5_blowerCond (d : Int) :
    FurnaceBlower.engageCond
      { previousState := some ⟨70, 70, false, 2⟩
        lastTransitionTime := 1000
        stateChanged := false
        failCount := 0 } (1000 + d) =
      decide (d < k_runBlowerFanAfterHeatOff) := by
  unfold FurnaceBlower.engageCond
  rw [c5_tsT 2 d false]
  rfl

lemma c5_blower (d : Int) :
    FurnaceBlower.update (some 0)
      { previousState := some ⟨70, 70, false, 2⟩
        lastTransitionTime := 1000
        stateChanged := false
        failCount := 0 } (1000 + d) =
      ((some 0 : Option Int),
       if decide (d < k_runBlowerFanAfterHeatOff) then ([] : List Cmd)
         else [Cmd.setBlower 0]) := by
  by_cases hd : d < k_runBlowerFanAfterHeatOff
  · rw [FurnaceBlower.update_engage _ _ _ (by rw [c5_blowerCond]; simpa using hd)]
    rw [if_pos (show (decide (d < k_runBlowerFanAfterHeatOff)) = true by simpa using hd)]
    simp [Thermostat.getBlowerState, BLOWER_ON]
  · rw [FurnaceBlower.update_disengage _ _ _ (by rw [c5_blowerCond]; simpa using hd),
        FurnaceBlower.disengageStep_some]
    rw [if_neg (show ¬((decide (d < k_runBlowerFanAfterHeatOff)) = true) by simpa using hd)]
    simp [Thermostat.getBlowerState]

lemma c5_step (f : Bool) (fm : Int) (sc : Bool) (d : Int) :
    mainStep (c5MidState f fm sc) (c5Input d) =
      .ok (c5MidState (f || decide (d > k_ceilingFanOffDelay)) 2 false,
        ((if !f && decide (d > k_ceilingFanOffDelay)
            then [Cmd.setFanSpeed k_heatOffFanSpeed] else ([] : List Cmd)) ++
         (if decide (d < k_runBlowerFanAfterHeatOff) then ([] : List Cmd)
            else [Cmd.setBlower 0])).map (fun c => ((1000 : Int) + d, c))) := by
  have hup : (c5MidState f fm sc).tstat.update (c5Input d).now (c5Input d).status
      (c5Input d).body =
      .ok ({ previousState := some ⟨70, 70, false, 2⟩
             lastTransitionTime := 1000
             stateChanged := false
             failCount := 0 }, true, false) := by
    show (c5MidState f fm sc).tstat.update (1000 + d) 200 (tstatBody false 2) = _
    rw [Thermostat.update_success ((c5MidState f fm sc).tstat) (1000 + d) (tstatBody false 2)
      ⟨70, 70, false, 2⟩ rfl]
    rfl
  unfold mainStep
  rw [hup]
  dsimp only
  rw [if_pos rfl]
  rw [show (c5MidState f fm sc).fanFlag = f from rfl,
      show (c5MidState f fm sc).blowerLatch = some 0 from rfl,
      show (c5Input d).now = 1000 + d from rfl,
      show (c5Input d).fanCmdOk = true from rfl,
      c5_fan f d, c5_blower d]
  rfl

lemma c5_stepCmds_fan (f : Bool) (d : Int) :
    ((((if !f && decide (d > k_ceilingFanOffDelay)
          then [Cmd.setFanSpeed k_heatOffFanSpeed] else ([] : List Cmd)) ++
       (if decide (d < k_runBlowerFanAfterHeatOff) then ([] : List Cmd)
          else [Cmd.setBlower 0])).map (fun c => ((1000 : Int) + d, c))).filter
        (fun c => c.2.isFan)) =
      (if !f && decide (d > k_ceilingFanOffDelay)
        then [((1000 : Int) + d, Cmd.setFanSpeed k_heatOffFanSpeed)] else []) := by
  by_cases h1 : (!f && decide (d > k_ceilingFanOffDelay)) = true
  · rw [if_pos h1, if_pos h1]
    by_cases h2 : (decide (d < k_runBlowerFanAfterHeatOff)) = true
    · rw [if_pos h2]; rfl
    · rw [if_neg h2]; rfl
  · rw [if_neg h1, if_neg h1]
    by_cases h2 : (decide (d < k_runBlowerFanAfterHeatOff)) = true
    · rw [if_pos h2]; rfl
    · rw [if_neg h2]; rfl

lemma c5_stepCmds_blower (f : Bool) (d : Int) :
    ((((if !f && decide (d > k_ceilingFanOffDelay)
          then [Cmd.setFanSpeed k_heatOffFanSpeed] else ([] : List Cmd)) ++
       (if decide (d < k_runBlowerFanAfterHeatOff) then ([] : List Cmd)
          else [Cmd.setBlower 0])).map (fun c => ((1000 : Int) + d, c))).filter
        (fun c => c.2.isBlower)) =
      (if decide (d < k_runBlowerFanAfterHeatOff) then []
        else [((1000 : Int) + d, Cmd.setBlower 0)]) := by
  by_cases h1 : (!f && decide (d > k_ceilingFanOffDelay)) = true
  · rw [if_pos h1]
    by_cases h2 : (decide (d < k_runBlowerFanAfterHeatOff)) = true
    · rw [if_pos h2, if_pos h2]; rfl
    · rw [if_neg h2, if_neg h2]; rfl
  · rw [if_neg h1]
    by_cases h2 : (decide (d < k_runBlowerFanAfterHeatOff)) = true
    · rw [if_pos h2, if_pos h2]; rfl
    · rw [if_neg h2, if_neg h2]; rfl

lemma c5_run (ds : List Int) : ∀ (f : Bool) (fm : Int) (sc : Bool),
    ∃ sFin cl, mainRun (c5MidState f fm sc) (ds.map c5Input) = .ok (sFin, cl) ∧
      cl.filter (fun c => c.2.isFan) =
        (if f then [] else
          match ds.find? (fun d => decide (d > k_ceilingFanOffDelay)) with
          | some d => [((1000 : Int) + d, Cmd.setFanSpeed k_heatOffFanSpeed)]
          | none => []) ∧
      cl.filter (fun c => c.2.isBlower) =
        (ds.filter (fun d => decide (k_runBlowerFanAfterHeatOff ≤ d))).map
          (fun d => ((1000 : Int) + d, Cmd.setBlower 0)) := by
  induction ds with
  | nil =>
    intro f fm sc
    exact ⟨_, [], rfl, by cases f <;> rfl, rfl⟩
  | cons d rest ih =>
    intro f fm sc
    obtain ⟨sFin, cl, hrun, hfan, hblow⟩ := ih (f || decide (d > k_ceilingFanOffDelay)) 2 false
    refine ⟨sFin,
      ((((if !f && decide (d > k_ceilingFanOffDelay)
            then [Cmd.setFanSpeed k_heatOffFanSpeed] else ([] : List Cmd)) ++
         (if decide (d < k_runBlowerFanAfterHeatOff) then ([] : List Cmd)
            else [Cmd.setBlower 0])).map (fun c => ((1000 : Int) + d, c))) ++ cl),
      ?_, ?_, ?_⟩
    · show mainRun (c5MidState f fm sc) (c5Input d :: rest.map c5Input) = _
      simp only [mainRun]
      rw [c5_step f fm sc d]
      dsimp only
      rw [hrun]
    · rw [List.filter_append, c5_stepCmds_fan, hfan]
      cases f with
      | true => simp
      | false =>
        by_cases hd : (decide (d > k_ceilingFanOffDelay)) = true
        · simp [List.find?_cons, hd]
        · have hd2 : (decide (d > k_ceilingFanOffDelay)) = false := by
            simpa using hd
          simp [List.find?_cons, hd2]
    · rw [List.filter_append, c5_stepCmds_blower f d, hblow]
      simp only [List.filter_cons]
      by_cases hd : d < k_runBlowerFanAfterHeatOff
      · have hd1 : (decide (d < k_runBlowerFanAfterHeatOff)) = true := by simpa using hd
        have hd2 : (decide (k_runBlowerFanAfterHeatOff ≤ d)) = false := by
          simp only [decide_eq_false_iff_not]
          omega
        simp [hd1, hd2]
      · have hd1 : (decide (d < k_runBlowerFanAfterHeatOff)) = false := by
          simp only [decide_eq_false_iff_not]
          omega
        have hd2 : (decide (k_runBlowerFanAfterHeatOff ≤ d)) = true := by
          simp only [decide_eq_true_eq]
          omega
        simp [hd1, hd2]

lemma c5_prefix :
    mainRun (sysInit 500) ((⟨600, 200, tstatBody true 0, true⟩ : LoopInput) ::
        (⟨1000, 200, tstatBody false 0, true⟩ : LoopInput) :: []) =
      .ok (c5MidState false 0 true,
        [((600 : Int), Cmd.setFanSpeed k_heatOnFanSpeed),
         ((1000 : Int), Cmd.setBlower BLOWER_ON)]) := rfl

/-- C5 counterexample: in the scenario trace with the transition poll at
clock value 1000 (t = 0) and the next poll exactly at offset 180 — the
first poll at or after the off-delay — the synchronizer issues no
heatOffSpeed command at all (the only fan command is the pre-transition
heat-on one), because the debounce comparison is strict: the claimed
command at the first poll at-or-after 180 s does not happen. -/
theorem c5_boundary_counterexample :
    runFanCmds (sysInit 500) (c5Trace [180]) =
      .ok [((600 : Int), Cmd.setFanSpeed k_heatOnFanSpeed)] ∧
    ((1000 : Int) + 180) - 1000 = k_ceilingFanOffDelay := ⟨rfl, rfl⟩

/-- C5 amended: in the scenario trace (heat on at clock 600, heat-off
transition at clock 1000 = t 0, then heat-off polls at offsets ds with the
blower reporting the forced ON mode), the ceiling fan issues exactly one
heat-on speed command before the transition and exactly one heatOffSpeed
command at the first poll whose offset is strictly greater than the 180 s
off-delay (none at or before it, none after); the blower override issues
ON at the transition poll (t = 0) and a restore command at every poll with
offset at least the 360 s tail window while the device still reports ON;
and if heat resumes while a latch is held the restore command is issued
immediately regardless of elapsed tail time. -/
theorem c5_trace_behaviour (ds : List Int) :
    runFanCmds (sysInit 500) (c5Trace ds) =
      .ok (((600 : Int), Cmd.setFanSpeed k_heatOnFanSpeed) ::
        (match ds.find? (fun d => decide (d > k_ceilingFanOffDelay)) with
         | some d => [((1000 : Int) + d, Cmd.setFanSpeed k_heatOffFanSpeed)]
         | none => [])) ∧
    runBlowerCmds (sysInit 500) (c5Trace ds) =
      .ok (((1000 : Int), Cmd.setBlower BLOWER_ON) ::
        (ds.filter (fun d => decide (k_runBlowerFanAfterHeatOff ≤ d))).map
          (fun d => ((1000 : Int) + d, Cmd.setBlower 0))) ∧
    (∀ (t : Thermostat) (now m : Int), t.isFurnaceOn = true → t.getBlowerState ≠ m →
      (FurnaceBlower.update (some m) t now).2 = [Cmd.setBlower m]) := by
  obtain ⟨sFin, cl, hrun, hfan, hblow⟩ := c5_run ds false 0 true
  have htot : mainRun (sysInit 500) (c5Trace ds) =
      .ok (sFin, [((600 : Int), Cmd.setFanSpeed k_heatOnFanSpeed),
        ((1000 : Int), Cmd.setBlower BLOWER_ON)] ++ cl) := by
    have hsplit : c5Trace ds =
        ((⟨600, 200, tstatBody true 0, true⟩ : LoopInput) ::
         (⟨1000, 200, tstatBody false 0, true⟩ : LoopInput) :: []) ++ ds.map c5Input := rfl
    rw [hsplit, mainRun_append, c5_prefix]
    dsimp only
    rw [hrun]
  refine ⟨?_, ?_, ?_⟩
  · unfold runFanCmds runCmds
    rw [htot]
    dsimp only [Except.map]
    rw [List.filter_append, hfan]
    rfl
  · unfold runBlowerCmds runCmds
    rw [htot]
    dsimp only [Except.map]
    rw [List.filter_append, hblow]
    rfl
  · intro t now m hheat hne
    rw [FurnaceBlower.update_disengage _ _ _
        (by unfold FurnaceBlower.engageCond; rw [hheat]; simp),
      FurnaceBlower.disengageStep_some]
    rw [if_neg (show ¬((t.getBlowerState == m) = true) by simpa using hne)]

/-- C5 witness: heat on with a latch holding CIRCULATE while the device
reports AUTO forces an immediate restore command. -/
theorem c5_trace_behaviour_witness :
    (FurnaceBlower.update (some 1) exTstat 1300).2 = [Cmd.setBlower 1] :=
  (c5_trace_behaviour []).2.2 exTstat 1300 1 rfl (by decide)
